import Mathlib

/-!
Verification of the lifecycle controller of `drun/run.py` (named development
containers managed through an external container engine).

The embedding mirrors the source:
* `Op` is the operation enumeration (`Op` in the source, with the source's
  member names `CREATE .. NUKE` lowercased).
* `Cfg` is the runtime configuration a `Docker` instance carries after
  construction (user, password, workspace, optional startup script, root
  flag, port pairs).
* `Action` is one external-engine (or filesystem) action the controller can
  issue; an `Oracle` tells, per action, whether the engine reports success.
* `checks` / `findReject` embed the validation dictionary scanned at the top
  of `Docker.run`; `create`, `clear_cache`, `dispatch`, `runOp` embed
  `Docker.create`, `Docker.clear_cache` and the operation dispatch of
  `Docker.run`, threading the ordered list of issued actions and the
  exception behaviour of `subprocess.run(..., check=True)` (a failing
  checked call raises; `Docker.run`'s outer `except` turns that into an
  error report and suppresses the completion message).
-/

namespace Drun

/-- Single-quote character, used inside the controller's literal messages. -/
def sq : String := String.singleton (Char.ofNat 39)

/-- Opening-brace character; `Docker.run` only `eval`s a rejection message
when this character occurs in it. -/
def openBrace : Char := Char.ofNat 123

/-- The operation enumeration `Op` of the source. -/
inductive Op where
  | create
  | start
  | stop
  | restart
  | clean
  | reset
  | nuke
deriving DecidableEq, Repr, BEq

/-- `op.name.lower()` of the source enumeration member. -/
def opName : Op → String
  | Op.create => "create"
  | Op.start => "start"
  | Op.stop => "stop"
  | Op.restart => "restart"
  | Op.clean => "clean"
  | Op.reset => "reset"
  | Op.nuke => "nuke"

/-- One external action the controller can issue.  `startupExec` carries the
shell command string passed to `docker exec bash -c`. -/
inductive Action where
  | workspaceEnsure
  | build
  | runContainer
  | startupExec (cmd : String)
  | startCt
  | stopCt
  | restartCt
  | removeCt
  | removeImage
  | execSync
  | execDropCaches
deriving DecidableEq, Repr

/-- Per-action success verdict of the external engine. -/
def Oracle : Type := Action → Bool

/-- Runtime configuration of a `Docker` instance (fields `name`, `user`,
`pwd`, `ws`, `script`, `root`, `ports` of the source constructor, after
defaulting; `ws` is already absolute). -/
structure Cfg where
  name : String
  user : String
  pwd : String
  ws : String
  script : Option String
  root : Bool
  ports : List (Nat × Nat)
deriving DecidableEq, Repr

/-- Observable project-directory state touched by `Docker.setup`:
whether `projects/<name>` exists and whether its `Dockerfile` exists. -/
structure FS where
  dirExists : Bool
  dfExists : Bool
deriving DecidableEq, Repr

/-- `Docker.setup`: create the project directory if missing, then copy the
Dockerfile template if the Dockerfile is absent. -/
def setup (fs : FS) : FS :=
  let fs1 := if fs.dirExists then fs else { fs with dirExists := true }
  if fs1.dfExists then fs1 else { fs1 with dfExists := true }

/-- Rejection message of the `Op.CREATE` entry of the `checks` dict:
`"exists. Use 'start' or 'reset'."`. -/
def createExistsMsg : String :=
  "exists. Use " ++ sq ++ "start" ++ sq ++ " or " ++ sq ++ "reset" ++ sq ++ "."

/-- Rejection message of the `Op.START` entry, exactly as the source writes
it: the literal text `'not found' if not exists else 'running'`. -/
def startRejectMsg : String :=
  sq ++ "not found" ++ sq ++ " if not exists else " ++ sq ++ "running" ++ sq

/-- Rejection message of the `Op.STOP` entry, exactly as the source writes
it: the literal text `'not found' if not exists else 'not running'`. -/
def stopRejectMsg : String :=
  sq ++ "not found" ++ sq ++ " if not exists else " ++ sq ++ "not running" ++ sq

/-- Rejection message of the `Op.RESTART` and `Op.CLEAN` entries:
`"not found. Use 'create'."`. -/
def notFoundUseCreateMsg : String :=
  "not found. Use " ++ sq ++ "create" ++ sq ++ "."

/-- The `checks` dictionary of `Docker.run`, in insertion order; keys are
`(operation, condition)` pairs, values the messages above. -/
def checks (ex rn : Bool) : List ((Op × Bool) × String) :=
  [((Op.create, ex), createExistsMsg),
   ((Op.start, !ex || rn), startRejectMsg),
   ((Op.stop, !ex || !rn), stopRejectMsg),
   ((Op.restart, !ex), notFoundUseCreateMsg),
   ((Op.clean, !ex), notFoundUseCreateMsg)]

/-- The validation scan of `Docker.run`: the first `checks` entry whose
operation equals the requested one and whose condition holds yields the
rejection message; `none` means the operation proceeds. -/
def findReject (op : Op) (ex rn : Bool) : Option String :=
  (checks ex rn).findSome? fun e => if op == e.1.1 && e.1.2 then some e.2 else none

/-- The test `'{' in msg` guarding the `eval(msg)` branch of the rejection
print in `Docker.run`. -/
def hasBrace (msg : String) : Bool := msg.toList.contains openBrace

/-- The rejection line printed by `Docker.run`.  The source prints
`eval(msg)` when `hasBrace msg` and the literal `msg` otherwise;
`checks_no_brace` shows no message of `checks` contains a brace, so the
literal branch is always the one taken. -/
def printedRejection (name msg : String) : String :=
  "Container " ++ name ++ " " ++ msg

/-- Specification-side rejection predicate, transcribed from the table in
section 4.1 of the specification. -/
def tableRejects : Op → Bool → Bool → Bool
  | Op.create, ex, _ => ex
  | Op.start, ex, rn => !ex || rn
  | Op.stop, ex, rn => !ex || !rn
  | Op.restart, ex, _ => !ex
  | Op.clean, ex, _ => !ex
  | Op.reset, _, _ => false
  | Op.nuke, _, _ => false

/-- The in-container mount point of the user's workspace,
`/home/<user>/workspace` (specification-side name for the path the source
writes inline both in `run_cmd` and in the startup exec). -/
def mountPoint (cfg : Cfg) : String :=
  "/home/" ++ cfg.user ++ "/workspace"

/-- The shell command `Docker.create` passes to `docker exec bash -c` for a
configured startup script: `cd /home/<user>/workspace && ./<script>`. -/
def startupCmd (cfg : Cfg) (s : String) : String :=
  "cd /home/" ++ cfg.user ++ "/workspace && ./" ++ s

/-- The source's `Docker.run_cmd` (renamed: that identifier is reserved in
Lean): the argument list of the `docker run` invocation, built exactly as
the source builds it (base list, then one `-p h:c` pair per port, then the
single `-v` bind mount, then `-u user` unless root mode, then the image
name). -/
def runCmd (cfg : Cfg) : List String :=
  let cmd := ["docker", "run", "-d", "--name", cfg.name]
  let cmd := cmd ++
    (cfg.ports.map (fun hc => ["-p", toString hc.1 ++ ":" ++ toString hc.2])).flatten
  let cmd := cmd ++ ["-v", cfg.ws ++ ":" ++ "/home/" ++ cfg.user ++ "/workspace"]
  let cmd := if cfg.root then cmd else cmd ++ ["-u", cfg.user]
  cmd ++ [cfg.name]

/-- Specification-side port-publish argument list: one `-p host:container`
flag pair per configured port, in the configured order. -/
def portPublish : List (Nat × Nat) → List String
  | [] => []
  | (h, c) :: t => ["-p", toString h ++ ":" ++ toString c] ++ portPublish t

/-- How `Docker.create` terminates: an early `return` after a missing
Dockerfile or a failed build (both swallowed, printed only), a normal
completion, or an uncaught `CalledProcessError` from the checked `docker
run` / startup exec call. -/
inductive CreateExit where
  | noDockerfile
  | buildFailed
  | ok
  | raised
deriving DecidableEq, Repr

/-- `Docker.create`: check the Dockerfile, ensure the workspace directory,
build, `docker run`, then optionally exec the startup script.  Returns the
ordered list of issued actions and how the call terminated. -/
def create (cfg : Cfg) (dfEx : Bool) (ρ : Oracle) : List Action × CreateExit :=
  if dfEx = false then ([], CreateExit.noDockerfile)
  else
    let t := [Action.workspaceEnsure, Action.build]
    if ρ Action.build = false then (t, CreateExit.buildFailed)
    else
      let t := t ++ [Action.runContainer]
      if ρ Action.runContainer = false then (t, CreateExit.raised)
      else
        match cfg.script with
        | none => (t, CreateExit.ok)
        | some s =>
          let a := Action.startupExec (startupCmd cfg s)
          if ρ a = false then (t ++ [a], CreateExit.raised)
          else (t ++ [a], CreateExit.ok)

/-- `Docker.clear_cache`: exec `sync`, then exec the cache-drop command,
inside a `try` whose `except` merely prints `Cache clear failed`.  Returns
the issued actions and whether the failure print fired (`true` when either
exec failed; in that case control still returns normally to the caller). -/
def clear_cache (ρ : Oracle) : List Action × Bool :=
  if ρ Action.execSync = false then ([Action.execSync], true)
  else if ρ Action.execDropCaches = false then
    ([Action.execSync, Action.execDropCaches], true)
  else ([Action.execSync, Action.execDropCaches], false)

/-- The `ops` dispatch of `Docker.run` for a validated operation: the
ordered list of issued engine actions and whether an uncaught exception was
raised (a failing `subprocess.run(..., check=True)` anywhere but inside
`clear_cache` or `build`). -/
def dispatch (op : Op) (cfg : Cfg) (ex rn dfEx : Bool) (ρ : Oracle) :
    List Action × Bool :=
  match op with
  | Op.create =>
    let (t, e) := create cfg dfEx ρ
    (t, e == CreateExit.raised)
  | Op.start => ([Action.startCt], ρ Action.startCt = false)
  | Op.stop => ([Action.stopCt], ρ Action.stopCt = false)
  | Op.restart => ([Action.restartCt], ρ Action.restartCt = false)
  | Op.clean =>
    let (t, _) := clear_cache ρ
    (t ++ [Action.restartCt], ρ Action.restartCt = false)
  | Op.reset =>
    if ex then
      let a := if rn then Action.stopCt else Action.removeCt
      if ρ a = false then ([a], true)
      else
        let (t, e) := create cfg dfEx ρ
        ([a] ++ t, e == CreateExit.raised)
    else
      let (t, e) := create cfg dfEx ρ
      (t, e == CreateExit.raised)
  | Op.nuke =>
    let pre : List Action := if ex then [if rn then Action.stopCt else Action.removeCt] else []
    let preOk := if ex then ρ (if rn then Action.stopCt else Action.removeCt) else true
    if preOk = false then (pre, true)
    else if ρ Action.removeImage = false then (pre ++ [Action.removeImage], true)
    else
      let (t, e) := create cfg dfEx ρ
      (pre ++ [Action.removeImage] ++ t, e == CreateExit.raised)

/-- The message `Operation '<op>' completed!` printed on the success path
of `Docker.run`. -/
def completedMsg (op : Op) : String :=
  "Operation " ++ sq ++ opName op ++ sq ++ " completed!"

/-- What one invocation of `Docker.run` reports: a validation rejection
line, the completion line, or the error line printed by the outer
`except`. -/
inductive Outcome where
  | rejected (line : String)
  | completed (line : String)
  | errorReport
deriving DecidableEq, Repr

/-- One full invocation of `Docker.run`: filesystem setup, state query
results `ex`/`rn`, the validation scan, then the operation dispatch.
Returns the project-directory state after setup, the ordered engine
actions issued, and the reported outcome.  After `setup` the Dockerfile
exists, so `dispatch` runs with `dfEx = true`. -/
def runOp (op : Op) (cfg : Cfg) (ex rn : Bool) (ρ : Oracle) (fs : FS) :
    FS × List Action × Outcome :=
  let fs1 := setup fs
  match findReject op ex rn with
  | some msg => (fs1, [], Outcome.rejected (printedRejection cfg.name msg))
  | none =>
    let (t, raised) := dispatch op cfg ex rn true ρ
    (fs1, t, if raised then Outcome.errorReport
             else Outcome.completed (completedMsg op))

/-- Whether the first character list is a leading segment of the second. -/
def leadEq : List Char → List Char → Bool
  | [], _ => true
  | _ :: _, [] => false
  | a :: as, b :: bs => a == b && leadEq as bs

/-- Whether the first character list occurs contiguously in the second. -/
def hasSub (n : List Char) : List Char → Bool
  | [] => leadEq n []
  | c :: t => leadEq n (c :: t) || hasSub n t

/-- Python's substring test `needle in hay` on strings. -/
def strMem (needle hay : String) : Bool := hasSub needle.toList hay.toList

/-- `Docker.exists`: `True` iff the container name occurs in the stdout of
`docker ps -a`; a raised exception (modelled by `Except.error`) yields
`False` (`try ... except: return False`). -/
def existsQuery (name : String) (q : Except Unit String) : Bool :=
  match q with
  | Except.ok out => strMem name out
  | Except.error _ => false

/-- `Docker.running`: `True` iff the container name occurs in the stdout of
`docker ps`; a raised exception yields `False`. -/
def runningQuery (name : String) (q : Except Unit String) : Bool :=
  match q with
  | Except.ok out => strMem name out
  | Except.error _ => false

theorem checks_no_brace :
    hasBrace createExistsMsg = false
      ∧ hasBrace startRejectMsg = false
      ∧ hasBrace stopRejectMsg = false
      ∧ hasBrace notFoundUseCreateMsg = false := by
  decide

/-- Test configuration: container `web`, user `alice`, no startup script,
non-root, no ports. -/
def cfgT : Cfg :=
  { name := "web", user := "alice", pwd := "pw", ws := "/abs/ws",
    script := none, root := false, ports := [] }

/-- Test configuration with a startup script configured. -/
def cfgS : Cfg := { cfgT with script := some "init.sh" }

/-- Test filesystem state: project directory and Dockerfile both absent. -/
def fsT : FS := { dirExists := false, dfExists := false }

/-- Engine oracle on which every action succeeds. -/
def oracleAll : Oracle := fun _ => true

/-- Engine oracle on which exactly the given action fails. -/
def oracleFail (a : Action) : Oracle := fun b => !(b == a)

/-- On the accepted branch `Docker.run` issues exactly the dispatch trace
and reports completion or the caught exception. -/
theorem runOp_accepted (op : Op) (cfg : Cfg) (ex rn : Bool) (ρ : Oracle)
    (fs : FS) (h : findReject op ex rn = none) :
    runOp op cfg ex rn ρ fs
      = (setup fs, (dispatch op cfg ex rn true ρ).1,
         if (dispatch op cfg ex rn true ρ).2 then Outcome.errorReport
         else Outcome.completed (completedMsg op)) := by
  rcases hd : dispatch op cfg ex rn true ρ with ⟨t, r⟩
  simp [runOp, h, hd]

/-- On the rejected branch `Docker.run` issues nothing and prints the
rejection line. -/
theorem runOp_rejected (op : Op) (cfg : Cfg) (ex rn : Bool) (ρ : Oracle)
    (fs : FS) (msg : String) (h : findReject op ex rn = some msg) :
    runOp op cfg ex rn ρ fs
      = (setup fs, [], Outcome.rejected (printedRejection cfg.name msg)) := by
  simp [runOp, h]

/-- The port arguments built inline in `runCmd` flatten to `portPublish`. -/
theorem portPublish_eq (ports : List (Nat × Nat)) :
    (ports.map (fun hc => ["-p", toString hc.1 ++ (":" ++ toString hc.2)])).flatten
      = portPublish ports := by
  induction ports with
  | nil => rfl
  | cons h t ih => simp [portPublish, ih, String.append_assoc]

/-- C1: for every operation kind and every `(exists, running)` pair, the
validation scan of `Docker.run` rejects exactly when the table of section
4.1 of the specification does (Create iff exists; Start iff not exists or
running; Stop iff not exists or not running; Restart and
ClearCacheAndRestart iff not exists; RecreateIfExists and FullRebuild
never), and a rejected operation issues zero engine actions. -/
theorem validation_gate_matches_table (op : Op) (ex rn : Bool) (cfg : Cfg)
    (ρ : Oracle) (fs : FS) :
    (findReject op ex rn).isSome = tableRejects op ex rn
      ∧ (tableRejects op ex rn = true → (runOp op cfg ex rn ρ fs).2.1 = []) := by
  constructor
  · cases op <;> cases ex <;> cases rn <;> rfl
  · intro h
    cases op <;> cases ex <;> cases rn <;>
      first
        | rfl
        | exact absurd h (by decide)

/-- Witness for C1 at Start on an existing running container. -/
theorem validation_gate_matches_table_witness :
    (findReject Op.start true true).isSome = tableRejects Op.start true true
      ∧ (runOp Op.start cfgT true true oracleAll fsT).2.1 = [] :=
  ⟨(validation_gate_matches_table Op.start true true cfgT oracleAll fsT).1,
   (validation_gate_matches_table Op.start true true cfgT oracleAll fsT).2
     (by decide)⟩

/-- C2: code bug.  At the failing inputs the controller issues zero
actions but prints the *literal* conditional-expression text of the
`checks` dict — never "already running", "not found" or "not running" —
because the guard of the `eval(msg)` branch looks for a brace that no
message contains. -/
theorem rejection_message_is_literal_text :
    (runOp Op.start cfgT true true oracleAll fsT).2.1 = []
      ∧ (runOp Op.start cfgT true true oracleAll fsT).2.2
          = Outcome.rejected ("Container web " ++ startRejectMsg)
      ∧ (runOp Op.start cfgT false false oracleAll fsT).2.2
          = Outcome.rejected ("Container web " ++ startRejectMsg)
      ∧ (runOp Op.stop cfgT true false oracleAll fsT).2.2
          = Outcome.rejected ("Container web " ++ stopRejectMsg)
      ∧ (runOp Op.stop cfgT false true oracleAll fsT).2.2
          = Outcome.rejected ("Container web " ++ stopRejectMsg)
      ∧ startRejectMsg ≠ "already running"
      ∧ startRejectMsg ≠ "not found"
      ∧ stopRejectMsg ≠ "not running"
      ∧ stopRejectMsg ≠ "not found" := by
  decide

/-- C3 counterexample: with the filesystem-sync exec failing,
ClearCacheAndRestart still issues the restart command. -/
theorem clean_sync_failure_still_restarts :
    (oracleFail Action.execSync) Action.execSync = false
      ∧ (clear_cache (oracleFail Action.execSync)).2 = true
      ∧ (runOp Op.clean cfgT true true (oracleFail Action.execSync) fsT).2.1
          = [Action.execSync, Action.restartCt]
      ∧ Action.restartCt
          ∈ (runOp Op.clean cfgT true true (oracleFail Action.execSync) fsT).2.1 := by
  decide

/-- C3 amended: if the sync or the cache-drop exec fails, the failure is
reported (the `except` inside `clear_cache` prints) but the restart
command is still issued — the exec failures are swallowed inside
`clear_cache` and do not abort the sequence. -/
theorem clean_reports_failure_but_still_restarts (cfg : Cfg) (rn : Bool)
    (ρ : Oracle) (fs : FS)
    (h : ρ Action.execSync = false ∨ ρ Action.execDropCaches = false) :
    (clear_cache ρ).2 = true
      ∧ (runOp Op.clean cfg true rn ρ fs).2.1
          = (clear_cache ρ).1 ++ [Action.restartCt]
      ∧ Action.restartCt ∈ (runOp Op.clean cfg true rn ρ fs).2.1 := by
  refine ⟨?_, rfl, ?_⟩
  · rcases h with h | h
    · simp [clear_cache, h]
    · cases h1 : ρ Action.execSync <;> simp [clear_cache, h1, h]
  · show Action.restartCt ∈ (clear_cache ρ).1 ++ [Action.restartCt]
    simp

/-- Witness for C3's amended statement with the cache-drop exec failing. -/
theorem clean_reports_failure_but_still_restarts_witness :
    (clear_cache (oracleFail Action.execDropCaches)).2 = true
      ∧ (runOp Op.clean cfgT true false (oracleFail Action.execDropCaches) fsT).2.1
          = (clear_cache (oracleFail Action.execDropCaches)).1 ++ [Action.restartCt]
      ∧ Action.restartCt
          ∈ (runOp Op.clean cfgT true false (oracleFail Action.execDropCaches) fsT).2.1 :=
  clean_reports_failure_but_still_restarts cfgT false
    (oracleFail Action.execDropCaches) fsT (Or.inr (by decide))

/-- C4 counterexample: the build fails, yet the controller still prints
the success confirmation `Operation 'create' completed!`. -/
theorem create_build_failure_still_completes :
    (oracleFail Action.build) Action.build = false
      ∧ (runOp Op.create cfgT false false (oracleFail Action.build) fsT).2.1
          = [Action.workspaceEnsure, Action.build]
      ∧ (runOp Op.create cfgT false false (oracleFail Action.build) fsT).2.2
          = Outcome.completed (completedMsg Op.create) := by
  decide

/-- C4 amended: the completion line is emitted whenever the dispatched
sequence raises no uncaught engine exception.  Create's build-failure and
missing-Dockerfile paths are caught inside `create` (early return), so
Create still reports completion after a failed build, while an uncaught
failure such as the `docker run` call suppresses the completion line. -/
theorem completion_report_amended (cfg : Cfg) (rn : Bool) (ρ : Oracle)
    (fs : FS) :
    (ρ Action.build = false →
        (runOp Op.create cfg false rn ρ fs).2.2
          = Outcome.completed (completedMsg Op.create))
      ∧ (create cfg false ρ).2 = CreateExit.noDockerfile
      ∧ (ρ Action.build = true → ρ Action.runContainer = false →
          (runOp Op.create cfg false rn ρ fs).2.2 = Outcome.errorReport) := by
  refine ⟨?_, rfl, ?_⟩
  · intro hb
    have hc : create cfg true ρ
        = ([Action.workspaceEnsure, Action.build], CreateExit.buildFailed) := by
      simp [create, hb]
    rw [runOp_accepted Op.create cfg false rn ρ fs rfl]
    simp [dispatch, hc]
  · intro hb hr
    have hc : create cfg true ρ
        = ([Action.workspaceEnsure, Action.build, Action.runContainer],
           CreateExit.raised) := by
      simp [create, hb, hr]
    rw [runOp_accepted Op.create cfg false rn ρ fs rfl]
    simp [dispatch, hc]

/-- Witness for C4's amended statement: a failed build still completes, a
failed `docker run` reports an error. -/
theorem completion_report_amended_witness :
    (runOp Op.create cfgT false false (oracleFail Action.build) fsT).2.2
        = Outcome.completed (completedMsg Op.create)
      ∧ (runOp Op.create cfgT false false (oracleFail Action.runContainer) fsT).2.2
        = Outcome.errorReport :=
  ⟨(completion_report_amended cfgT false (oracleFail Action.build) fsT).1
     (by decide),
   (completion_report_amended cfgT false (oracleFail Action.runContainer) fsT).2.2
     (by decide) (by decide)⟩

/-- C5: Create on a non-existing container issues exactly, in order:
workspace-ensure, build, create+start, and — only when a startup script is
configured — the startup exec, whose shell command changes directory to
the user's workspace mount point; a failed build stops the sequence before
the run and exec actions. -/
theorem create_sequence_exact (cfg : Cfg) (rn : Bool) (ρ : Oracle) (fs : FS) :
    ((runOp Op.create cfg false rn ρ fs).2.1 = (create cfg true ρ).1)
      ∧ (ρ Action.build = true → ρ Action.runContainer = true →
          (cfg.script = none →
              (create cfg true ρ).1
                = [Action.workspaceEnsure, Action.build, Action.runContainer])
            ∧ ∀ s, cfg.script = some s →
                (create cfg true ρ).1
                  = [Action.workspaceEnsure, Action.build, Action.runContainer,
                     Action.startupExec (startupCmd cfg s)])
      ∧ (ρ Action.build = false →
          (create cfg true ρ).1 = [Action.workspaceEnsure, Action.build])
      ∧ ∀ s, startupCmd cfg s = "cd " ++ mountPoint cfg ++ " && ./" ++ s := by
  refine ⟨?_, ?_, ?_, ?_⟩
  · rcases hc : create cfg true ρ with ⟨t, e⟩
    rw [runOp_accepted Op.create cfg false rn ρ fs rfl]
    simp [dispatch, hc]
  · intro hb hr
    constructor
    · intro hs
      simp [create, hb, hr, hs]
    · intro s hs
      cases ha : ρ (Action.startupExec (startupCmd cfg s)) <;>
        simp [create, hb, hr, hs, ha]
  · intro hb
    simp [create, hb]
  · intro s
    simp only [startupCmd, mountPoint, String.append_assoc]
    rfl

/-- Witness for C5 with a configured startup script and with a failing
build. -/
theorem create_sequence_exact_witness :
    (create cfgS true oracleAll).1
        = [Action.workspaceEnsure, Action.build, Action.runContainer,
           Action.startupExec (startupCmd cfgS "init.sh")]
      ∧ (create cfgT true (oracleFail Action.build)).1
        = [Action.workspaceEnsure, Action.build] :=
  ⟨((create_sequence_exact cfgS false oracleAll fsT).2.1 rfl rfl).2
     "init.sh" rfl,
   (create_sequence_exact cfgT false (oracleFail Action.build) fsT).2.2.1
     (by decide)⟩

/-- C6: RecreateIfExists (`reset`) on an existing running container issues
a stop (not a remove) and then the full Create sequence; on an existing
stopped container a remove and then the full Create sequence; on a
non-existing container the Create sequence alone. -/
theorem reset_teardown_then_create (cfg : Cfg) (ρ : Oracle) (fs : FS)
    (hstop : ρ Action.stopCt = true) (hrm : ρ Action.removeCt = true) :
    (runOp Op.reset cfg true true ρ fs).2.1
        = Action.stopCt :: (create cfg true ρ).1
      ∧ (runOp Op.reset cfg true false ρ fs).2.1
        = Action.removeCt :: (create cfg true ρ).1
      ∧ ∀ rn, (runOp Op.reset cfg false rn ρ fs).2.1 = (create cfg true ρ).1 := by
  rcases hc : create cfg true ρ with ⟨t, e⟩
  refine ⟨?_, ?_, fun rn => ?_⟩ <;>
    · rw [runOp_accepted Op.reset cfg _ _ ρ fs rfl]
      simp [dispatch, hstop, hrm, hc]

/-- Witness for C6 on the running case. -/
theorem reset_teardown_then_create_witness :
    (runOp Op.reset cfgT true true oracleAll fsT).2.1
        = Action.stopCt :: (create cfgT true oracleAll).1 :=
  (reset_teardown_then_create cfgT oracleAll fsT rfl rfl).1

/-- C7: FullRebuild (`nuke`) issues the image removal unconditionally for
every observed state, after the container teardown and before the Create
sequence, and a failed image removal aborts before any Create action. -/
theorem nuke_image_removal (cfg : Cfg) (ex rn : Bool) (ρ : Oracle) (fs : FS)
    (hpre : ex = true → ρ (if rn then Action.stopCt else Action.removeCt) = true) :
    (runOp Op.nuke cfg ex rn ρ fs).2.1
        = (if ex then [if rn then Action.stopCt else Action.removeCt] else [])
            ++ [Action.removeImage]
            ++ (if ρ Action.removeImage then (create cfg true ρ).1 else [])
      ∧ (ρ Action.removeImage = false →
          (runOp Op.nuke cfg ex rn ρ fs).2.2 = Outcome.errorReport) := by
  rcases hc : create cfg true ρ with ⟨t, e⟩
  rw [runOp_accepted Op.nuke cfg ex rn ρ fs rfl]
  cases ex <;> cases rn <;> cases hri : ρ Action.removeImage <;>
    simp_all [dispatch, hc]

/-- Witness for C7 on an existing running container with a failing image
removal. -/
theorem nuke_image_removal_witness :
    (runOp Op.nuke cfgT true true (oracleFail Action.removeImage) fsT).2.2
        = Outcome.errorReport :=
  (nuke_image_removal cfgT true true (oracleFail Action.removeImage) fsT
    (fun _ => rfl)).2 rfl

/-- C8: the computed `docker run` argument list is detached (`-d`), named
after the identity, publishes the configured ports in configured order,
bind-mounts the absolute workspace to the user's mount point exactly once,
and carries `-u user` exactly when root mode is off. -/
theorem runCmd_structure (cfg : Cfg) :
    runCmd cfg
        = ["docker", "run", "-d", "--name", cfg.name]
            ++ portPublish cfg.ports
            ++ ["-v", cfg.ws ++ ":" ++ mountPoint cfg]
            ++ (if cfg.root then [] else ["-u", cfg.user])
            ++ [cfg.name]
      ∧ portPublish [(8080, 80), (2222, 22)]
          = ["-p", "8080:80", "-p", "2222:22"] := by
  constructor
  · cases hr : cfg.root <;>
      · simp [runCmd, hr, portPublish_eq, mountPoint,
          List.append_assoc, String.append_assoc]
        try rfl
  · decide

/-- C9: the existence/running queries catch every engine exception and
return false, so a failed state query is indistinguishable from an absent
(respectively not-running) container. -/
theorem state_queries_total (name out : String)
    (h : strMem name out = false) :
    existsQuery name (Except.error ()) = false
      ∧ runningQuery name (Except.error ()) = false
      ∧ existsQuery name (Except.error ()) = existsQuery name (Except.ok out)
      ∧ runningQuery name (Except.error ()) = runningQuery name (Except.ok out) := by
  refine ⟨rfl, rfl, ?_, ?_⟩ <;> simp [existsQuery, runningQuery, h]

/-- Witness for C9 with name `web` and empty engine output. -/
theorem state_queries_total_witness :
    strMem "web" "" = false
      ∧ existsQuery "web" (Except.error ()) = false
      ∧ existsQuery "web" (Except.error ()) = existsQuery "web" (Except.ok "") :=
  ⟨by decide, (state_queries_total "web" "" (by decide)).1,
   (state_queries_total "web" "" (by decide)).2.2.1⟩

/-- C10: every invocation, for every operation and observed state, runs
filesystem setup before validation: after the call the project directory
and Dockerfile exist, and when the Dockerfile was absent the on-disk state
was mutated even if the operation was rejected. -/
theorem setup_precedes_validation (op : Op) (cfg : Cfg) (ex rn : Bool)
    (ρ : Oracle) (fs : FS) :
    (runOp op cfg ex rn ρ fs).1 = setup fs
      ∧ ((setup fs).dirExists = true ∧ (setup fs).dfExists = true)
      ∧ (fs.dfExists = false → (runOp op cfg ex rn ρ fs).1 ≠ fs) := by
  have h1 : (runOp op cfg ex rn ρ fs).1 = setup fs := by
    cases op <;> cases ex <;> cases rn <;> rfl
  have h2 : (setup fs).dirExists = true ∧ (setup fs).dfExists = true := by
    rcases fs with ⟨d, f⟩
    cases d <;> cases f <;> exact ⟨rfl, rfl⟩
  refine ⟨h1, h2, ?_⟩
  intro h hEq
  rw [h1] at hEq
  rw [hEq] at h2
  exact Bool.noConfusion (h.symm.trans h2.2)

/-- Witness for C10: a rejected Start still ends with both directory and
Dockerfile present, mutating the initially-empty state. -/
theorem setup_precedes_validation_witness :
    (runOp Op.start cfgT true true oracleAll fsT).1 = setup fsT
      ∧ (runOp Op.start cfgT true true oracleAll fsT).1 ≠ fsT :=
  ⟨(setup_precedes_validation Op.start cfgT true true oracleAll fsT).1,
   (setup_precedes_validation Op.start cfgT true true oracleAll fsT).2.2 rfl⟩

end Drun
